import Mathlib

/-!
Shallow embedding of the password-manager domain core: the Client/Password
repositories (from src/apps/password-manager-api/src/repositories) and the
Client/Password services (whose sources are absent from the repository
snapshot; they are modelled from spec.md sections 4.3/4.4 and their unit
tests). Store and crypto collaborators are passed in explicitly, mirroring
the dependency-injected design.
-/

/-- Modelled from the spec: the fixed error-code enumeration of section 7
(the `PasswordManagerErrorCodeEnum` source in `@password-manager:types` is
not under src/; members are those referenced by the spec and the tests). -/
inductive PasswordManagerErrorCodeEnum where
  | NotFound
  | ClientNotFound
  | PasswordNotFound
  | LoginAlreadyExists
  | DynamoDBDown
  | ServiceUnavailable
  | BadRequest
  | NotImplemented
deriving DecidableEq, Repr

/-- Modelled from the spec: the single domain exception kind of section 7,
carrying `statusCode`, `message`, `errorCode` (the `PasswordManagerException`
source in `@password-manager:api:types` is not under src/; field values of
the builders are pinned by the unit tests under src/). -/
structure PasswordManagerException where
  statusCode : Nat
  message : String
  errorCode : PasswordManagerErrorCodeEnum
deriving DecidableEq, Repr

def PasswordManagerException.notFound : PasswordManagerException :=
  { statusCode := 404, message := "Not Found", errorCode := .NotFound }

def PasswordManagerException.serviceUnavailable : PasswordManagerException :=
  { statusCode := 503, message := "Service Unavailable", errorCode := .ServiceUnavailable }

def PasswordManagerException.badRequest : PasswordManagerException :=
  { statusCode := 400, message := "Bad Request", errorCode := .BadRequest }

def PasswordManagerException.withMessage (e : PasswordManagerException) (m : String) :
    PasswordManagerException :=
  { e with message := m }

def PasswordManagerException.withErrorCode (e : PasswordManagerException)
    (c : PasswordManagerErrorCodeEnum) : PasswordManagerException :=
  { e with errorCode := c }

/-- `metadata` object of Client and Password records (spec section 3). -/
structure Metadata where
  createdDate : String
  updatedDate : String
deriving DecidableEq, Repr

/-- Client record as persisted (spec section 3; shape used throughout
`client.repository.ts`). -/
structure Client where
  clientId : String
  login : String
  password : String
  metadata : Metadata
deriving DecidableEq, Repr

/-- Input to client create/update: `{login, password}` (`ClientInput` in
`@password-manager:api:types`, as used by `client.repository.ts`). -/
structure ClientInput where
  login : String
  password : String
deriving DecidableEq, Repr

/-- Response view of a client: `{clientId, login, metadata}`. By
construction this type has no password field (spec section 6:
`ClientResponse` — password never included). -/
structure ClientResponse where
  clientId : String
  login : String
  metadata : Metadata
deriving DecidableEq, Repr

/-- Password record as persisted (spec section 3). -/
structure Password where
  passwordId : String
  name : String
  website : Option String
  login : String
  value : String
  clientId : String
  metadata : Metadata
deriving DecidableEq, Repr

/-- Outcome of the store's `get` call inside `getClientById`: the call
returns an item, returns no item, or throws. -/
inductive GetResult where
  | found (c : Client)
  | missing
  | storeDown
deriving DecidableEq, Repr

/-- Outcome of the store's `query` call inside `getClientByLogin`: the call
returns an `Items` array (possibly absent, `none`), or throws. -/
inductive QueryResult where
  | items (l : Option (List Client))
  | storeDown
deriving DecidableEq, Repr

/-- Outcome of the store's conditional `update` call inside `updateClient`:
success, the `ConditionExpression` `attribute_exists(clientId)` failed (no
record for the id), or any other store failure (both failure cases throw). -/
inductive UpdateResult where
  | ok
  | conditionFailed
  | storeDown
deriving DecidableEq, Repr

/-- `ClientRepository.getClientById` (client.repository.ts lines 23-72),
with the store `get` outcome passed explicitly. No item: rejects 404
ClientNotFound; this rejection is a returned promise inside the `try` and is
not intercepted by the `catch`. A thrown store error is caught and becomes
503 DynamoDBDown. -/
def ClientRepository.getClientById (clientId : String) (r : GetResult) :
    Except PasswordManagerException Client :=
  match r with
  | .found c => .ok c
  | .missing =>
      .error ((PasswordManagerException.notFound.withMessage
        ("No client exists with ID \x27" ++ clientId ++ "\x27")).withErrorCode .ClientNotFound)
  | .storeDown =>
      .error ((PasswordManagerException.serviceUnavailable.withMessage
        "Service is temporarily unavailable.").withErrorCode .DynamoDBDown)

/-- `ClientRepository.getClientByLogin` (client.repository.ts lines 74-133),
with the LoginIndex query outcome passed explicitly. Absent or empty `Items`:
rejects 404 ClientNotFound with the login-bearing message; otherwise the
first item of the array is returned; a thrown store error becomes 503
DynamoDBDown. -/
def ClientRepository.getClientByLogin (login : String) (q : QueryResult) :
    Except PasswordManagerException Client :=
  match q with
  | .items none =>
      .error ((PasswordManagerException.notFound.withMessage
        ("No client exists with login \x27" ++ login ++ "\x27")).withErrorCode .ClientNotFound)
  | .items (some []) =>
      .error ((PasswordManagerException.notFound.withMessage
        ("No client exists with login \x27" ++ login ++ "\x27")).withErrorCode .ClientNotFound)
  | .items (some (c :: _)) => .ok c
  | .storeDown =>
      .error ((PasswordManagerException.serviceUnavailable.withMessage
        "Service is temporarily unavailable.").withErrorCode .DynamoDBDown)

/-- The entry object `createClient` builds and saves (client.repository.ts
lines 144-155): fresh id, the input's login and password verbatim, both
timestamps stamped to the same `now`. -/
def createClientEntry (input : ClientInput) (newId now : String) : Client :=
  { clientId := newId
    login := input.login
    password := input.password
    metadata := { createdDate := now, updatedDate := now } }

/-- `ClientRepository.createClient` (client.repository.ts lines 135-184):
saves the entry and returns it; a thrown store error becomes 503
DynamoDBDown (no `withMessage` on this path). `saveOk` is the store `save`
outcome. -/
def ClientRepository.createClient (input : ClientInput) (newId now : String)
    (saveOk : Bool) : Except PasswordManagerException Client :=
  let entry := createClientEntry input newId now
  if saveOk then .ok entry
  else .error (PasswordManagerException.serviceUnavailable.withErrorCode .DynamoDBDown)

/-- `ClientRepository.updateClient` (client.repository.ts lines 230-286):
a throwing store `update` (condition failure included) is caught and becomes
503 DynamoDBDown; on update success the result of `getClientById` is
returned as a promise without `await`, so its rejection bypasses this
method's `catch`. `re` is the store `get` outcome of the re-read. -/
def ClientRepository.updateClient (clientId : String) (_input : ClientInput)
    (u : UpdateResult) (re : GetResult) : Except PasswordManagerException Client :=
  match u with
  | .ok => ClientRepository.getClientById clientId re
  | .conditionFailed =>
      .error (PasswordManagerException.serviceUnavailable.withErrorCode .DynamoDBDown)
  | .storeDown =>
      .error (PasswordManagerException.serviceUnavailable.withErrorCode .DynamoDBDown)

/-- A stored item as a flat map from attribute paths (for example
`metadata.createdDate`) to string values. -/
abbrev Item := List (String × String)

/-- Look an attribute path up in an item. -/
def getAttr (item : Item) (key : String) : Option String :=
  match item with
  | [] => none
  | (k, v) :: rest => if k = key then some v else getAttr rest key

/-- Set an attribute path in an item (replace in place, append if absent). -/
def setAttr (item : Item) (key value : String) : Item :=
  match item with
  | [] => [(key, value)]
  | (k, v) :: rest =>
      if k = key then (key, value) :: rest else (k, v) :: setAttr rest key value

/-- The `UpdateCommandInput` shape sent to the store (spec section 6). -/
structure UpdateCommandInput where
  tableName : String
  key : List (String × String)
  updateExpression : String
  expressionAttributeNames : List (String × String)
  expressionAttributeValues : List (String × String)
  conditionExpression : String

/-- The update command built by `ClientRepository.updateClient`
(client.repository.ts lines 239-256), every string verbatim from the
source. -/
def updateClientCommand (clientId : String) (input : ClientInput) (now : String) :
    UpdateCommandInput :=
  { tableName := "Client"
    key := [("clientId", clientId)]
    updateExpression :=
      "set #login = :login, #password = :password, metadata.#updatedDate = :updatedDate"
    expressionAttributeNames :=
      [("#login", "login"), ("#password", "password"), ("#updatedDate", "updatedDate")]
    expressionAttributeValues :=
      [(":login", input.login), (":password", input.password), (":updatedDate", now)]
    conditionExpression := "attribute_exists(clientId)" }

/-- Split a character list on a separator character. -/
def charsSplitOn (sep : Char) : List Char → List (List Char)
  | [] => [[]]
  | c :: rest =>
      let r := charsSplitOn sep rest
      if c = sep then [] :: r
      else
        match r with
        | [] => [[c]]
        | h :: t => (c :: h) :: t

/-- Drop leading and trailing spaces of a character list. -/
def trimSpaces (l : List Char) : List Char :=
  ((l.dropWhile (· = ' ')).reverse.dropWhile (· = ' ')).reverse

/-- Resolve an attribute path of an update expression: each `#`-prefixed
segment is replaced through `ExpressionAttributeNames`. -/
def resolvePath (names : List (String × String)) (tok : List Char) : String :=
  String.intercalate "." ((charsSplitOn '.' tok).map (fun seg =>
    match seg with
    | '#' :: _ => (getAttr names (String.mk seg)).getD (String.mk seg)
    | _ => String.mk seg))

/-- Resolve the right-hand side of an update clause: a `:`-prefixed token is
replaced through `ExpressionAttributeValues`. -/
def resolveValue (values : List (String × String)) (tok : List Char) : String :=
  match tok with
  | ':' :: _ => (getAttr values (String.mk tok)).getD (String.mk tok)
  | _ => String.mk tok

/-- Turn one `path = :value` clause of a `set` expression into the (path,
value) assignment it denotes. -/
def clauseToAssignment (names values : List (String × String)) (clause : List Char) :
    String × String :=
  match (charsSplitOn '=' clause).map trimSpaces with
  | [lhs, rhs] => (resolvePath names lhs, resolveValue values rhs)
  | _ => ("", "")

/-- DynamoDB semantics of a `set ...` update expression: the list of (path,
value) assignments the command performs, names and values substituted. -/
def assignmentsOfUpdate (cmd : UpdateCommandInput) : List (String × String) :=
  let body := trimSpaces (cmd.updateExpression.data.drop 4)
  ((charsSplitOn ',' body).map trimSpaces).map
    (clauseToAssignment cmd.expressionAttributeNames cmd.expressionAttributeValues)

/-- Apply a list of assignments to a stored item, left to right. -/
def applyAssignments (item : Item) (asgn : List (String × String)) : Item :=
  asgn.foldl (fun it kv => setAttr it kv.1 kv.2) item

/-- Effect of an update command on the stored item it targets. -/
def applyUpdateCommand (item : Item) (cmd : UpdateCommandInput) : Item :=
  applyAssignments item (assignmentsOfUpdate cmd)

/-- The `Items` array the LoginIndex query returns for a login: the stored
clients whose `login` attribute equals the queried login. -/
def clientsWithLogin (store : List Client) (login : String) : List Client :=
  store.filter (fun c => c.login = login)

/-- Result of one `ClientService.createClient` run: the response (or domain
exception), the client store afterwards, and how many times the crypto
provider's `encrypt` and the repository's `createClient` were called. -/
structure CreateClientOutcome where
  result : Except PasswordManagerException ClientResponse
  store : List Client
  encryptCalls : Nat
  createCalls : Nat
deriving Repr

/-- Modelled from the spec: `ClientService.createClient` (spec section 4.4;
the service source is not under src/, only client.service.spec.ts). Looks
the login up via the repository's `getClientByLogin` over the store; a found
record fails 400 "Login is already in use" / LoginAlreadyExists with no
encrypt and no create call; a 404 from the lookup proceeds: encrypt the
password, create through the repository, return the password-free
`ClientResponse` view; any other lookup failure propagates untransformed. -/
def ClientService.createClient (store : List Client) (input : ClientInput)
    (encrypt : String → String) (newId now : String) : CreateClientOutcome :=
  match ClientRepository.getClientByLogin input.login
      (.items (some (clientsWithLogin store input.login))) with
  | .ok _ =>
      { result := .error ((PasswordManagerException.badRequest.withMessage
          "Login is already in use").withErrorCode .LoginAlreadyExists)
        store := store, encryptCalls := 0, createCalls := 0 }
  | .error e =>
      if e.statusCode = 404 then
        let encrypted := encrypt input.password
        match ClientRepository.createClient
            { login := input.login, password := encrypted } newId now true with
        | .ok client =>
            let response : ClientResponse :=
              { clientId := client.clientId, login := client.login,
                metadata := client.metadata }
            { result := .ok response, store := store ++ [client],
              encryptCalls := 1, createCalls := 1 }
        | .error e2 =>
            { result := .error e2, store := store, encryptCalls := 1, createCalls := 1 }
      else
        { result := .error e, store := store, encryptCalls := 0, createCalls := 0 }

/-- A collaborator call made by `ClientService.deleteClient`. -/
inductive ServiceCall where
  | deletePasswordsForClientId (clientId : String)
  | deleteClientRecord (clientId : String)
deriving DecidableEq, Repr

/-- Modelled from the spec: `ClientService.deleteClient` (spec sections 4.4
and 8; the service source is not under src/, only client.service.spec.ts).
Invokes the Password Repository's bulk-by-owner delete and the Client
Repository's delete, in that order, each attempted exactly once regardless
of either outcome; either failure surfaces as the operation's failure, with
no rollback. Returns the result together with the ordered call trace. -/
def ClientService.deleteClient (clientId : String)
    (pwDelete clDelete : Except PasswordManagerException Unit) :
    Except PasswordManagerException Unit × List ServiceCall :=
  let calls := [ServiceCall.deletePasswordsForClientId clientId,
                ServiceCall.deleteClientRecord clientId]
  match pwDelete with
  | .error e => (.error e, calls)
  | .ok _ =>
      match clDelete with
      | .error e => (.error e, calls)
      | .ok _ => (.ok (), calls)

/-- Modelled from the spec: `PasswordService.getPasswords` (spec section
4.3; the service source is not under src/, only password.service.spec.ts —
get-passwords.controller.ts lines 22-36 under src/ carries the same logic).
Delegates to the repository's `getPasswordsByClientId` (its outcome passed
explicitly), then decrypts the `value` field of every returned record in
place; a repository failure propagates unchanged with decryption skipped.
Returns the result paired with the number of `decrypt` calls made. -/
def PasswordService.getPasswords (_clientId : String)
    (repoResult : Except PasswordManagerException (List Password))
    (decrypt : String → String) :
    Except PasswordManagerException (List Password) × Nat :=
  match repoResult with
  | .error e => (.error e, 0)
  | .ok pws => (.ok (pws.map fun p => { p with value := decrypt p.value }), pws.length)

theorem getAttr_setAttr_self (item : Item) (k v : String) :
    getAttr (setAttr item k v) k = some v := by
  induction item with
  | nil => simp [setAttr, getAttr]
  | cons head rest ih =>
      obtain ⟨k1, v1⟩ := head
      by_cases h : k1 = k
      · simp [setAttr, getAttr, h]
      · simp [setAttr, getAttr, h, ih]

theorem getAttr_setAttr_ne (item : Item) (k v k2 : String) (h : k ≠ k2) :
    getAttr (setAttr item k v) k2 = getAttr item k2 := by
  induction item with
  | nil => simp [setAttr, getAttr, h]
  | cons head rest ih =>
      obtain ⟨k1, v1⟩ := head
      by_cases h1 : k1 = k
      · subst h1
        simp [setAttr, getAttr, h]
      · by_cases h2 : k1 = k2
        · simp [setAttr, getAttr, h1, h2, Ne.symm h]
        · simp [setAttr, getAttr, h1, h2, ih]

/-- The client update command denotes exactly three assignments: `login`,
`password`, `metadata.updatedDate` (names and values substituted). -/
theorem updateClientCommand_assignments (clientId : String) (input : ClientInput)
    (now : String) :
    assignmentsOfUpdate (updateClientCommand clientId input now)
      = [("login", input.login), ("password", input.password),
         ("metadata.updatedDate", now)] := rfl

/-- C6: for every login for which the store query returns an absent or empty
Items set, `getClientByLogin` fails with a 404 ClientNotFound error whose
message is "No client exists with login '<login>'" (in particular for
'nobody' against `{Items: []}`); when the query returns more than one item,
the first matching record is returned. -/
theorem clientRepository_getClientByLogin_spec :
    (∀ login : String,
      ClientRepository.getClientByLogin login (.items (some []))
        = .error { statusCode := 404,
                   message := "No client exists with login \x27" ++ login ++ "\x27",
                   errorCode := .ClientNotFound }
      ∧ ClientRepository.getClientByLogin login (.items none)
        = .error { statusCode := 404,
                   message := "No client exists with login \x27" ++ login ++ "\x27",
                   errorCode := .ClientNotFound }
      ∧ ∀ (c : Client) (rest : List Client),
          ClientRepository.getClientByLogin login (.items (some (c :: rest))) = .ok c)
    ∧ ClientRepository.getClientByLogin "nobody" (.items (some []))
        = .error { statusCode := 404,
                   message := "No client exists with login \x27nobody\x27",
                   errorCode := .ClientNotFound } :=
  ⟨fun _ => ⟨rfl, rfl, fun _ _ => rfl⟩, rfl⟩

/-- C7: when the store's conditional update fails because no Client record
exists for the id (the `attribute_exists(clientId)` precondition is
violated), `updateClient` fails with the 503 ServiceUnavailable/DynamoDBDown
classification, not with a 404 NotFound error. -/
theorem clientRepository_updateClient_conditionFailed503 (clientId : String)
    (input : ClientInput) (re : GetResult) :
    ClientRepository.updateClient clientId input .conditionFailed re
      = .error (PasswordManagerException.serviceUnavailable.withErrorCode .DynamoDBDown)
    ∧ (PasswordManagerException.serviceUnavailable.withErrorCode .DynamoDBDown).statusCode = 503
    ∧ (PasswordManagerException.serviceUnavailable.withErrorCode .DynamoDBDown).statusCode ≠ 404
    ∧ (PasswordManagerException.serviceUnavailable.withErrorCode .DynamoDBDown).errorCode
        = .DynamoDBDown
    ∧ (PasswordManagerException.serviceUnavailable.withErrorCode .DynamoDBDown).errorCode
        ≠ .ClientNotFound :=
  ⟨rfl, rfl, by decide, rfl, by decide⟩

/-- C8: the update command issued by `updateClient` rewrites only the
`login`, `password` and `metadata.updatedDate` attributes of the stored
record; `clientId` and `metadata.createdDate` are left unchanged; and on
update success the full record is re-read and returned via
`getClientById`. -/
theorem clientRepository_updateClient_frame (item : Item) (clientId : String)
    (input : ClientInput) (now : String) :
    (∀ k : String, k ≠ "login" → k ≠ "password" → k ≠ "metadata.updatedDate" →
      getAttr (applyUpdateCommand item (updateClientCommand clientId input now)) k
        = getAttr item k)
    ∧ getAttr (applyUpdateCommand item (updateClientCommand clientId input now)) "clientId"
        = getAttr item "clientId"
    ∧ getAttr (applyUpdateCommand item (updateClientCommand clientId input now))
        "metadata.createdDate" = getAttr item "metadata.createdDate"
    ∧ getAttr (applyUpdateCommand item (updateClientCommand clientId input now)) "login"
        = some input.login
    ∧ getAttr (applyUpdateCommand item (updateClientCommand clientId input now)) "password"
        = some input.password
    ∧ getAttr (applyUpdateCommand item (updateClientCommand clientId input now))
        "metadata.updatedDate" = some now
    ∧ ∀ re : GetResult, ClientRepository.updateClient clientId input .ok re
        = ClientRepository.getClientById clientId re := by
  have hcmd : applyUpdateCommand item (updateClientCommand clientId input now)
      = setAttr (setAttr (setAttr item "login" input.login) "password" input.password)
          "metadata.updatedDate" now := by
    rw [applyUpdateCommand, updateClientCommand_assignments]
    rfl
  have hframe : ∀ k : String, k ≠ "login" → k ≠ "password" → k ≠ "metadata.updatedDate" →
      getAttr (applyUpdateCommand item (updateClientCommand clientId input now)) k
        = getAttr item k := by
    intro k h1 h2 h3
    rw [hcmd, getAttr_setAttr_ne _ _ _ _ (Ne.symm h3),
        getAttr_setAttr_ne _ _ _ _ (Ne.symm h2), getAttr_setAttr_ne _ _ _ _ (Ne.symm h1)]
  refine ⟨hframe, hframe _ (by decide) (by decide) (by decide),
    hframe _ (by decide) (by decide) (by decide), ?_, ?_, ?_, fun _ => rfl⟩
  · rw [hcmd, getAttr_setAttr_ne _ _ _ _ (by decide), getAttr_setAttr_ne _ _ _ _ (by decide),
        getAttr_setAttr_self]
  · rw [hcmd, getAttr_setAttr_ne _ _ _ _ (by decide), getAttr_setAttr_self]
  · rw [hcmd, getAttr_setAttr_self]

/-- Witness for C8 at a concrete stored item and input. -/
theorem clientRepository_updateClient_frame_witness :
    getAttr (applyUpdateCommand [("clientId", "c1"), ("metadata.createdDate", "d0")]
        (updateClientCommand "c1" { login := "l2", password := "p2" } "d1")) "clientId"
      = getAttr [("clientId", "c1"), ("metadata.createdDate", "d0")] "clientId" :=
  (clientRepository_updateClient_frame [("clientId", "c1"), ("metadata.createdDate", "d0")]
    "c1" { login := "l2", password := "p2" } "d1").1 "clientId"
    (by decide) (by decide) (by decide)

/-- C9: the repository's `createClient` passes the input's password to the
store verbatim (no encryption), stamps `metadata.createdDate` equal to
`metadata.updatedDate`, and returns exactly the record it saved. -/
theorem clientRepository_createClient_verbatim (input : ClientInput) (newId now : String) :
    ClientRepository.createClient input newId now true = .ok (createClientEntry input newId now)
    ∧ (createClientEntry input newId now).password = input.password
    ∧ (createClientEntry input newId now).metadata.createdDate
        = (createClientEntry input newId now).metadata.updatedDate
    ∧ (createClientEntry input newId now).metadata.createdDate = now
    ∧ (createClientEntry input newId now).login = input.login
    ∧ (createClientEntry input newId now).clientId = newId :=
  ⟨rfl, rfl, rfl, rfl, rfl, rfl⟩

/-- C10: when the conditional update succeeds but the re-read via
`getClientById` finds no item, `updateClient` fails with the re-read's 404
ClientNotFound error rather than 503: the re-read's promise is returned
without await inside the try block, so its rejection bypasses the catch
handler. -/
theorem clientRepository_updateClient_rereadNotFound (clientId : String)
    (input : ClientInput) :
    (∀ re : GetResult, ClientRepository.updateClient clientId input .ok re
        = ClientRepository.getClientById clientId re)
    ∧ ∃ e : PasswordManagerException,
        ClientRepository.updateClient clientId input .ok .missing = .error e
        ∧ e.statusCode = 404 ∧ e.statusCode ≠ 503
        ∧ e.errorCode = .ClientNotFound ∧ e.errorCode ≠ .DynamoDBDown
        ∧ e.message = "No client exists with ID \x27" ++ clientId ++ "\x27" :=
  ⟨fun _ => rfl,
   ⟨(PasswordManagerException.notFound.withMessage
       ("No client exists with ID \x27" ++ clientId ++ "\x27")).withErrorCode .ClientNotFound,
    rfl, rfl,
    by simp [PasswordManagerException.notFound, PasswordManagerException.withMessage,
             PasswordManagerException.withErrorCode],
    rfl,
    by simp [PasswordManagerException.notFound, PasswordManagerException.withMessage,
             PasswordManagerException.withErrorCode],
    rfl⟩⟩

/-- C1: for every valid login/password pair whose login is not already bound
to an existing Client, the Client Service's `createClient` returns a
`ClientResponse` whose login equals the input login and whose body contains
no password field (the `ClientResponse` type has none), and persists a
Client record whose password field equals `encrypt(inputPassword)`. -/
theorem clientService_createClient_success (store : List Client) (input : ClientInput)
    (encrypt : String → String) (newId now : String)
    (hfree : ∀ c ∈ store, c.login ≠ input.login) :
    (ClientService.createClient store input encrypt newId now).result
      = .ok { clientId := newId, login := input.login,
              metadata := { createdDate := now, updatedDate := now } }
    ∧ (ClientService.createClient store input encrypt newId now).store
      = store ++ [createClientEntry
                    { login := input.login, password := encrypt input.password } newId now]
    ∧ (createClientEntry { login := input.login, password := encrypt input.password }
        newId now).password = encrypt input.password := by
  have hq : clientsWithLogin store input.login = [] := by
    rw [clientsWithLogin, List.filter_eq_nil_iff]
    intro c hc
    simpa using hfree c hc
  refine ⟨?_, ?_, rfl⟩ <;>
    simp [ClientService.createClient, hq, ClientRepository.getClientByLogin,
          ClientRepository.createClient, createClientEntry,
          PasswordManagerException.notFound, PasswordManagerException.withMessage,
          PasswordManagerException.withErrorCode]

/-- Witness for C1 at a concrete empty store and input. -/
theorem clientService_createClient_success_witness :
    (ClientService.createClient [] { login := "login", password := "password" }
        (fun s => "enc-" ++ s) "clientId" "now").result
      = .ok { clientId := "clientId", login := "login",
              metadata := { createdDate := "now", updatedDate := "now" } }
    ∧ (ClientService.createClient [] { login := "login", password := "password" }
        (fun s => "enc-" ++ s) "clientId" "now").store
      = [] ++ [createClientEntry { login := "login", password := "enc-password" }
                 "clientId" "now"]
    ∧ (createClientEntry { login := "login", password := "enc-password" }
        "clientId" "now").password = "enc-password" :=
  clientService_createClient_success [] { login := "login", password := "password" }
    (fun s => "enc-" ++ s) "clientId" "now" (by simp)

/-- C2: for every login value already bound to an existing Client, the
Client Service's `createClient` fails with a 400 LoginAlreadyExists error
and performs zero crypto `encrypt` calls and zero repository create calls
(the store is left unchanged). -/
theorem clientService_createClient_loginExists (store : List Client) (input : ClientInput)
    (encrypt : String → String) (newId now : String) (c : Client)
    (hc : c ∈ store) (hlogin : c.login = input.login) :
    (ClientService.createClient store input encrypt newId now).result
      = .error { statusCode := 400, message := "Login is already in use",
                 errorCode := .LoginAlreadyExists }
    ∧ (ClientService.createClient store input encrypt newId now).encryptCalls = 0
    ∧ (ClientService.createClient store input encrypt newId now).createCalls = 0
    ∧ (ClientService.createClient store input encrypt newId now).store = store := by
  have hmem : c ∈ clientsWithLogin store input.login := by
    simp [clientsWithLogin, List.mem_filter, hc, hlogin]
  cases hcase : clientsWithLogin store input.login with
  | nil => rw [hcase] at hmem; cases hmem
  | cons d rest =>
      refine ⟨?_, ?_, ?_, ?_⟩ <;>
        simp [ClientService.createClient, hcase, ClientRepository.getClientByLogin,
              PasswordManagerException.badRequest, PasswordManagerException.withMessage,
              PasswordManagerException.withErrorCode]

/-- Witness for C2 at a concrete one-client store. -/
theorem clientService_createClient_loginExists_witness :
    (ClientService.createClient
        [{ clientId := "clientId", login := "login", password := "password",
           metadata := { createdDate := "now", updatedDate := "now" } }]
        { login := "login", password := "password2" } (fun s => "enc-" ++ s)
        "newId" "now2").result
      = .error { statusCode := 400, message := "Login is already in use",
                 errorCode := .LoginAlreadyExists }
    ∧ (ClientService.createClient
        [{ clientId := "clientId", login := "login", password := "password",
           metadata := { createdDate := "now", updatedDate := "now" } }]
        { login := "login", password := "password2" } (fun s => "enc-" ++ s)
        "newId" "now2").encryptCalls = 0
    ∧ (ClientService.createClient
        [{ clientId := "clientId", login := "login", password := "password",
           metadata := { createdDate := "now", updatedDate := "now" } }]
        { login := "login", password := "password2" } (fun s => "enc-" ++ s)
        "newId" "now2").createCalls = 0
    ∧ (ClientService.createClient
        [{ clientId := "clientId", login := "login", password := "password",
           metadata := { createdDate := "now", updatedDate := "now" } }]
        { login := "login", password := "password2" } (fun s => "enc-" ++ s)
        "newId" "now2").store
      = [{ clientId := "clientId", login := "login", password := "password",
           metadata := { createdDate := "now", updatedDate := "now" } }] :=
  clientService_createClient_loginExists
    [{ clientId := "clientId", login := "login", password := "password",
       metadata := { createdDate := "now", updatedDate := "now" } }]
    { login := "login", password := "password2" } (fun s => "enc-" ++ s) "newId" "now2"
    { clientId := "clientId", login := "login", password := "password",
      metadata := { createdDate := "now", updatedDate := "now" } }
    (by simp) rfl

/-- C3: when the repository returns a list of Password records, the Password
Service's `getPasswords` returns every record with its `value` field
replaced by `decrypt(storedValue)`, preserving all other fields of each
record and the order of the list. -/
theorem passwordService_getPasswords_decrypts (clientId : String) (pws : List Password)
    (decrypt : String → String) :
    (PasswordService.getPasswords clientId (.ok pws) decrypt).1
      = .ok (pws.map fun p => { p with value := decrypt p.value })
    ∧ (pws.map fun p => { p with value := decrypt p.value }).length = pws.length
    ∧ (pws.map fun p => { p with value := decrypt p.value }).map (fun p => p.value)
        = pws.map (fun p => decrypt p.value)
    ∧ (pws.map fun p => { p with value := decrypt p.value }).map (fun p => p.passwordId)
        = pws.map (fun p => p.passwordId)
    ∧ (pws.map fun p => { p with value := decrypt p.value }).map (fun p => p.name)
        = pws.map (fun p => p.name)
    ∧ (pws.map fun p => { p with value := decrypt p.value }).map (fun p => p.website)
        = pws.map (fun p => p.website)
    ∧ (pws.map fun p => { p with value := decrypt p.value }).map (fun p => p.login)
        = pws.map (fun p => p.login)
    ∧ (pws.map fun p => { p with value := decrypt p.value }).map (fun p => p.clientId)
        = pws.map (fun p => p.clientId)
    ∧ (pws.map fun p => { p with value := decrypt p.value }).map (fun p => p.metadata)
        = pws.map (fun p => p.metadata)
    ∧ (PasswordService.getPasswords clientId (.ok pws) decrypt).2 = pws.length := by
  refine ⟨rfl, by simp, ?_, ?_, ?_, ?_, ?_, ?_, ?_, rfl⟩ <;>
    simp [List.map_map, Function.comp]

/-- C4: for every client id, the Client Service's `deleteClient` invokes
exactly one bulk-delete-by-owner call for that id's Passwords and exactly
one delete call for the Client record, in that order, each attempted exactly
once regardless of whether either collaborator call fails. -/
theorem clientService_deleteClient_onceEachInOrder (clientId : String)
    (pwDelete clDelete : Except PasswordManagerException Unit) :
    (ClientService.deleteClient clientId pwDelete clDelete).2
      = [ServiceCall.deletePasswordsForClientId clientId,
         ServiceCall.deleteClientRecord clientId]
    ∧ (ClientService.deleteClient clientId pwDelete clDelete).2.count
        (ServiceCall.deletePasswordsForClientId clientId) = 1
    ∧ (ClientService.deleteClient clientId pwDelete clDelete).2.count
        (ServiceCall.deleteClientRecord clientId) = 1 := by
  cases pwDelete <;> cases clDelete <;>
    refine ⟨rfl, ?_, ?_⟩ <;>
      simp [ClientService.deleteClient, List.count_cons]

/-- C5: when the repository rejects `getPasswordsByClientId` with a NotFound
error, the Password Service's `getPasswords` propagates that exact failure
unchanged and performs zero crypto `decrypt` calls. -/
theorem passwordService_getPasswords_propagatesNotFound (clientId : String)
    (e : PasswordManagerException) (decrypt : String → String)
    (hnf : e.statusCode = 404) :
    PasswordService.getPasswords clientId (.error e) decrypt = (.error e, 0)
    ∧ e.statusCode = 404 :=
  ⟨rfl, hnf⟩

/-- Witness for C5 at the repository's generic NotFound exception. -/
theorem passwordService_getPasswords_propagatesNotFound_witness :
    PasswordService.getPasswords "clientId" (.error PasswordManagerException.notFound) id
      = (.error PasswordManagerException.notFound, 0)
    ∧ PasswordManagerException.notFound.statusCode = 404 :=
  passwordService_getPasswords_propagatesNotFound "clientId"
    PasswordManagerException.notFound id rfl
